import Mathlib

/-!
Shallow embedding of the Goldilocks Account & Session Service
(`src/goldilocks/services/auth.py` and `src/goldilocks/models/database.py`).

The SQLAlchemy session is modelled as a pair of database snapshots:
`committed` (what the store durably holds) and `working` (the session's
view including uncommitted adds and mutations).  `commit` publishes the
working view; `rollback` discards it.  Queries read the working view,
as SQLAlchemy's autoflushing session does.

Environmental nondeterminism is passed explicitly: the random password
salt is a parameter, and `log_activity` takes a Boolean `logFails`
oracle deciding whether the activity-log write raises (its `except`
branch) or succeeds (its `try` body).

Columns that no modelled operation reads or branches on (uuid, avatar,
verification flag, created/updated timestamps, client IP, user agent)
are omitted from the record types.
-/

namespace Goldilocks

/-- Python's `str.lower` on one character (ASCII range; the service's
identifiers are ASCII). -/
def charLower (c : Char) : Char :=
  if 65 ≤ c.toNat ∧ c.toNat ≤ 90 then Char.ofNat (c.toNat + 32) else c

/-- The whitespace characters Python's `str.strip` removes (ASCII range). -/
def isPySpace (c : Char) : Bool :=
  c = ' ' ∨ c = '\t' ∨ c = '\n' ∨ c = '\r' ∨ c.toNat = 11 ∨ c.toNat = 12

/-- Remove leading and trailing whitespace from a character list. -/
def stripChars (l : List Char) : List Char :=
  ((l.dropWhile isPySpace).reverse.dropWhile isPySpace).reverse

/-- Python's `s.strip()`. -/
def pyStrip (s : String) : String := ⟨stripChars s.data⟩

/-- Python's `s.lower()`. -/
def pyLower (s : String) : String := ⟨s.data.map charLower⟩

/-- Python's `s.lower().strip()`, as applied to candidate emails. -/
def pyLowerStrip (s : String) : String := pyStrip (pyLower s)

/-- Split a character list at the first occurrence of `sep`, returning the
parts before and after it, or `none` when `sep` does not occur.  Used to
parse the `method$salt$digest` layout of a stored password hash. -/
def splitFirstChar (sep : Char) : List Char → Option (List Char × List Char)
  | [] => none
  | c :: cs =>
    if c = sep then some ([], cs)
    else
      match splitFirstChar sep cs with
      | some p => some (c :: p.1, p.2)
      | none => none

/-- Modelled from the spec: the Credential Store (werkzeug's
`generate_password_hash`, wrapped by `User.set_password`) is a third-party
dependency whose source is not part of this repository.  Per spec §4.1 the
hash is a salted, non-reversible representation in the standard
`method$salt$digest` string layout; the random salt is passed explicitly.
The digest is modelled as a salt-dependent injective image of the
password. -/
def generate_password_hash (salt password : String) : String :=
  "pbkdf2:sha256" ++ "$" ++ salt ++ "$" ++ salt ++ ":" ++ password

/-- Modelled from the spec: werkzeug's `check_password_hash`, wrapped by
`User.check_password`.  Per spec §4.1, `verify(hash, candidate)` parses the
`method$salt$digest` layout, returns false (rather than throwing) when the
layout is malformed, and otherwise reports whether the candidate re-derives
the stored digest under the stored salt. -/
def check_password_hash (pwhash candidate : String) : Bool :=
  match splitFirstChar '$' pwhash.data with
  | none => false
  | some mrest =>
    match splitFirstChar '$' mrest.2 with
    | none => false
    | some sd =>
      decide (mrest.1 = "pbkdf2:sha256".data) &&
      decide (sd.2 = sd.1 ++ ':' :: candidate.data)

/-- A JSON-able metadata value stored in an activity-log entry. -/
inductive MetaVal where
  | str : String → MetaVal
  | strList : List String → MetaVal
  | boolVal : Bool → MetaVal
deriving DecidableEq, Repr

/-- Row of the `users` table (`User` model). -/
structure User where
  id : Nat
  email : String
  username : String
  password_hash : String
  full_name : Option String
  role : String
  active : Bool
  last_login_at : Option Nat
deriving DecidableEq, Repr

/-- Row of the `user_profiles` table (`UserProfile` model). -/
structure UserProfile where
  user_id : Nat
  bio : Option String
  location : Option String
  website : Option String
  company : Option String
  job_title : Option String
deriving DecidableEq, Repr

/-- Row of the `user_sessions` table (`UserSession` model). -/
structure UserSession where
  session_id : String
  user_id : Nat
  expires_at : Nat
  is_active : Bool
deriving DecidableEq, Repr

/-- Row of the `activity_logs` table (`ActivityLog` model). -/
structure ActivityLog where
  user_id : Option Nat
  action : String
  resource_type : Option String
  resource_id : Option String
  metadata : Option (List (String × MetaVal))
deriving DecidableEq, Repr

/-- A database snapshot: the four tables the service touches. -/
structure DB where
  users : List User
  profiles : List UserProfile
  sessions : List UserSession
  activities : List ActivityLog
deriving DecidableEq, Repr

/-- The SQLAlchemy session: committed store plus the working view. -/
structure SessionState where
  committed : DB
  working : DB
deriving DecidableEq, Repr

/-- `db.session.commit()`: publish the working view. -/
def commit (st : SessionState) : SessionState :=
  { committed := st.working, working := st.working }

/-- `db.session.rollback()`: discard uncommitted work. -/
def rollback (st : SessionState) : SessionState :=
  { committed := st.committed, working := st.committed }

/-- Replace the working view. -/
def setWorking (st : SessionState) (d : DB) : SessionState :=
  { st with working := d }

/-- Next surrogate id assigned at flush, one past the largest in use. -/
def nextId (users : List User) : Nat :=
  (users.map User.id).foldr max 0 + 1

/-- `AuthenticationService.log_activity`: builds an `ActivityLog` row, adds
it and commits; any failure is caught, the session is rolled back and the
error is swallowed (the caller cannot observe it).  `logFails` is the
oracle for whether the write raises. -/
def log_activity (st : SessionState) (logFails : Bool) (action : String)
    (user_id : Option Nat) (metadata : Option (List (String × MetaVal))) :
    SessionState :=
  if logFails then
    rollback st
  else
    commit (setWorking st { st.working with
      activities := st.working.activities ++
        [{ user_id := user_id, action := action, resource_type := none,
           resource_id := none, metadata := metadata }] })

/-- Normalize a `full_name`-style optional argument the way the source
does: `full_name.strip() if full_name else None` (the empty string is
falsy and clears the field). -/
def pyOptStrip (v : Option String) : Option String :=
  match v with
  | none => none
  | some s => if s = "" then none else some (pyStrip s)

/-- `AuthenticationService.create_user`.  The duplicate pre-check filters
on the raw `email` and `username` arguments; the inserted row stores the
normalized forms.  `db.session.flush()` after the add raises
`IntegrityError` when the normalized email or username collides with an
existing row, which the handler turns into a rollback and a generic
error.  `salt` is the random salt consumed by `set_password`. -/
def create_user (st : SessionState) (logFails : Bool) (salt : String)
    (email username password : String) (full_name : Option String)
    (role : String) : SessionState × Option User × Option String :=
  match st.working.users.find? (fun u => u.email = email ∨ u.username = username) with
  | some existing_user =>
    if existing_user.email = email then
      (st, none, some "An account with this email already exists")
    else
      (st, none, some "This username is already taken")
  | none =>
    let user : User :=
      { id := nextId st.working.users
        email := pyLowerStrip email
        username := pyStrip username
        password_hash := generate_password_hash salt password
        full_name := pyOptStrip full_name
        role := role
        active := true
        last_login_at := none }
    if st.working.users.any (fun u => u.email = user.email ∨ u.username = user.username) then
      (rollback st, none, some "An error occurred while creating your account")
    else
      let st1 := setWorking st { st.working with users := st.working.users ++ [user] }
      let st2 := setWorking st1 { st1.working with
        profiles := st1.working.profiles ++
          [{ user_id := user.id, bio := none, location := none,
             website := none, company := none, job_title := none }] }
      let st3 := log_activity st2 logFails "user_registered" (some user.id)
        (some [("email", MetaVal.str email), ("username", MetaVal.str username),
               ("role", MetaVal.str role)])
      (commit st3, some user, none)

/-- The lookup at the head of `authenticate_user`: email compared against
the lowercased/stripped identifier, username against the stripped one. -/
def find_user_by_identifier (st : SessionState) (ident : String) : Option User :=
  st.working.users.find? (fun u =>
    u.email = pyLowerStrip ident ∨ u.username = pyStrip ident)

/-- Overwrite the user row carrying `uid` (ids are unique, so this is the
mutation of the single ORM object the query returned). -/
def updateUserById (users : List User) (uid : Nat) (u : User) : List User :=
  users.map (fun v => if v.id = uid then u else v)

/-- `AuthenticationService.authenticate_user`.  `now` is the clock read
for `last_login_at`; `logFails` is the activity-log failure oracle. -/
def authenticate_user (st : SessionState) (logFails : Bool) (now : Nat)
    (email_or_username password : String) :
    SessionState × Option User × Option String :=
  match find_user_by_identifier st email_or_username with
  | none => (st, none, some "Invalid email/username or password")
  | some user =>
    if user.active = false then
      (st, none, some "Your account has been deactivated")
    else if check_password_hash user.password_hash password = false then
      let st1 := log_activity st logFails "login_failed" (some user.id)
        (some [("reason", MetaVal.str "invalid_password"),
               ("email", MetaVal.str email_or_username)])
      (st1, none, some "Invalid email/username or password")
    else
      let user1 := { user with last_login_at := some now }
      let st1 := setWorking st { st.working with
        users := updateUserById st.working.users user.id user1 }
      let st2 := log_activity st1 logFails "login_success" (some user.id)
        (some [("email", MetaVal.str user.email),
               ("username", MetaVal.str user.username)])
      (commit st2, some user1, none)

/-- Mark the first session carrying `sid` inactive (the mutation of the
single ORM object returned by `filter_by(session_id=...).first()`). -/
def setInactiveFirst : List UserSession → String → List UserSession
  | [], _ => []
  | s :: rest, sid =>
    if s.session_id = sid then { s with is_active := false } :: rest
    else s :: setInactiveFirst rest sid

/-- `AuthenticationService.invalidate_session`: finds the session row by
token — with no filter on `is_active` — marks it inactive and commits,
returning true; returns false only when no row carries the token. -/
def invalidate_session (st : SessionState) (session_id : String) :
    SessionState × Bool :=
  match st.working.sessions.find? (fun s => s.session_id = session_id) with
  | some _ =>
    (commit (setWorking st { st.working with
      sessions := setInactiveFirst st.working.sessions session_id }), true)
  | none => (st, false)

/-- `AuthenticationService.get_user_by_email`: filter on the
lowercased/stripped argument. -/
def get_user_by_email (st : SessionState) (email : String) : Option User :=
  st.working.users.find? (fun u => u.email = pyLowerStrip email)

/-- `AuthenticationService.get_user_by_username`: filter on the stripped
argument (case-sensitive). -/
def get_user_by_username (st : SessionState) (username : String) : Option User :=
  st.working.users.find? (fun u => u.username = pyStrip username)

/-- The bulk session update inside `change_password`: every session of
`uid` goes inactive, except the one named by `current_session_id` when
that is known. -/
def invalidateOtherSessions (sessions : List UserSession) (uid : Nat)
    (current_session_id : Option String) : List UserSession :=
  sessions.map (fun s =>
    if s.user_id = uid ∧ (∀ cid ∈ current_session_id, ¬ s.session_id = cid) then
      { s with is_active := false }
    else s)

/-- `AuthenticationService.change_password`.  `current_session_id` models
`getattr(current_user, "_session_id", None)`; `new_salt` is the salt for
the re-hash. -/
def change_password (st : SessionState) (logFails : Bool)
    (current_session_id : Option String) (new_salt : String) (user_id : Nat)
    (current_password new_password : String) :
    SessionState × Bool × Option String :=
  match st.working.users.find? (fun u => u.id = user_id) with
  | none => (st, false, some "User not found")
  | some user =>
    if check_password_hash user.password_hash current_password = false then
      (st, false, some "Current password is incorrect")
    else
      let user1 := { user with
        password_hash := generate_password_hash new_salt new_password }
      let st1 := setWorking st { st.working with
        users := updateUserById st.working.users user_id user1
        sessions := invalidateOtherSessions st.working.sessions user_id
          current_session_id }
      let st2 := log_activity st1 logFails "password_changed" (some user_id)
        (some [("sessions_invalidated", MetaVal.boolVal true)])
      (commit st2, true, none)

/-- Patch one optional profile field the way the source does under
`if field is not None:` — absent leaves the stored value, the empty
string clears it, anything else is stored stripped. -/
def applyPatch (field current : Option String) : Option String :=
  match field with
  | none => current
  | some s => if s = "" then none else some (pyStrip s)

/-- The `updated_fields` metadata computed by `update_user_profile` via
`[k for k, v in locals().items() if k != "user_id" and v is not None]`.
At the point of the call the local scope holds, in order: the seven
parameters, then `user` (the queried row, non-None on this path) and
`profile` (found or freshly created, non-None). -/
def localsUpdatedFields (full_name bio location website company job_title :
    Option String) : List String :=
  (([("user_id", true), ("full_name", full_name.isSome), ("bio", bio.isSome),
     ("location", location.isSome), ("website", website.isSome),
     ("company", company.isSome), ("job_title", job_title.isSome),
     ("user", true), ("profile", true)] : List (String × Bool)).filter
    (fun kv => ¬ kv.1 = "user_id" ∧ kv.2 = true)).map (fun kv => kv.1)

/-- `AuthenticationService.update_user_profile`. -/
def update_user_profile (st : SessionState) (logFails : Bool) (user_id : Nat)
    (full_name bio location website company job_title : Option String) :
    SessionState × Bool × Option String :=
  match st.working.users.find? (fun u => u.id = user_id) with
  | none => (st, false, some "User not found")
  | some user =>
    let user1 := match full_name with
      | none => user
      | some s => { user with full_name := if s = "" then none else some (pyStrip s) }
    let users := updateUserById st.working.users user_id user1
    let profile0 := match st.working.profiles.find? (fun p => p.user_id = user_id) with
      | some p => p
      | none => { user_id := user_id, bio := none, location := none,
                  website := none, company := none, job_title := none }
    let profile1 : UserProfile := { profile0 with
      bio := applyPatch bio profile0.bio
      location := applyPatch location profile0.location
      website := applyPatch website profile0.website
      company := applyPatch company profile0.company
      job_title := applyPatch job_title profile0.job_title }
    let profiles :=
      if (st.working.profiles.find? (fun p => p.user_id = user_id)).isSome then
        st.working.profiles.map (fun p => if p.user_id = user_id then profile1 else p)
      else
        st.working.profiles ++ [profile1]
    let st1 := setWorking st { st.working with users := users, profiles := profiles }
    let st2 := log_activity st1 logFails "profile_updated" (some user_id)
      (some [("updated_fields", MetaVal.strList
        (localsUpdatedFields full_name bio location website company job_title))])
    (commit st2, true, none)

/-! ### Fixtures for the closed theorems -/

/-- A session holding nothing: nothing committed, nothing pending. -/
def stEmpty : SessionState :=
  { committed := { users := [], profiles := [], sessions := [], activities := [] },
    working := { users := [], profiles := [], sessions := [], activities := [] } }

/-- A stored user with normalized email, as registration writes it. -/
def alice : User :=
  { id := 1, email := "a@b.com", username := "alice",
    password_hash := generate_password_hash "s0" "pw0",
    full_name := none, role := "user", active := true, last_login_at := none }

/-- A committed store holding exactly `alice`. -/
def stAlice : SessionState :=
  { committed := { users := [alice], profiles := [], sessions := [], activities := [] },
    working := { users := [alice], profiles := [], sessions := [], activities := [] } }

/-- An active session for `alice` under token `t1`. -/
def sessT1 : UserSession :=
  { session_id := "t1", user_id := 1, expires_at := 100, is_active := true }

/-- A committed store holding `alice` and her session `t1`. -/
def stAliceSess : SessionState :=
  { committed := { users := [alice], profiles := [], sessions := [sessT1], activities := [] },
    working := { users := [alice], profiles := [], sessions := [sessT1], activities := [] } }

/-- A deactivated user, for the `AccountDisabled` paths. -/
def carol : User :=
  { id := 2, email := "c@d.com", username := "carol",
    password_hash := generate_password_hash "s2" "pw2",
    full_name := none, role := "user", active := false, last_login_at := none }

/-- A committed store holding `alice` and the deactivated `carol`. -/
def stTwo : SessionState :=
  { committed := { users := [alice, carol], profiles := [], sessions := [], activities := [] },
    working := { users := [alice, carol], profiles := [], sessions := [], activities := [] } }

/-! ### Helper lemmas on hash parsing -/

theorem splitFirstChar_append_of_not_mem (sep : Char) (a b : List Char)
    (ha : sep ∉ a) : splitFirstChar sep (a ++ sep :: b) = some (a, b) := by
  induction a with
  | nil => simp [splitFirstChar]
  | cons c cs ih =>
    have hc : ¬ c = sep := fun h => ha (h ▸ List.mem_cons_self c cs)
    have hcs : sep ∉ cs := fun h => ha (List.mem_cons_of_mem _ h)
    simp [splitFirstChar, hc, ih hcs]

theorem splitFirstChar_eq_some (sep : Char) :
    ∀ l p, splitFirstChar sep l = some p → sep ∉ p.1 ∧ l = p.1 ++ sep :: p.2 := by
  intro l
  induction l with
  | nil => intro p h; simp [splitFirstChar] at h
  | cons c cs ih =>
    intro p h
    by_cases hc : c = sep
    · simp [splitFirstChar, hc] at h
      subst hc
      constructor
      · intro hmem
        rw [← h] at hmem
        simp at hmem
      · rw [← h]
        simp
    · simp [splitFirstChar, hc] at h
      cases hsplit : splitFirstChar sep cs with
      | none => rw [hsplit] at h; simp at h
      | some q =>
        rw [hsplit] at h
        simp at h
        have hq := ih q hsplit
        constructor
        · intro hmem
          rw [← h] at hmem
          rcases List.mem_cons.mp hmem with h1 | h2
          · exact hc h1.symm
          · exact hq.1 h2
        · rw [← h, hq.2]
          simp

theorem splitFirstChar_eq_none_of_not_mem (sep : Char) :
    ∀ l, sep ∉ l → splitFirstChar sep l = none := by
  intro l
  induction l with
  | nil => intro _; rfl
  | cons c cs ih =>
    intro h
    have hc : ¬ c = sep := fun hh => h (hh ▸ List.mem_cons_self c cs)
    have hcs : cs.dropLast = cs.dropLast := rfl
    have : sep ∉ cs := fun hh => h (List.mem_cons_of_mem _ hh)
    simp [splitFirstChar, hc, ih this]

/-- The spec-modelled verifier accepts exactly the producing password. -/
theorem check_generate_iff (salt p c : String) (hsalt : '$' ∉ salt.data) :
    (check_password_hash (generate_password_hash salt p) c = true ↔ c = p) := by
  have hm : ('$' : Char) ∉ "pbkdf2:sha256".data := by decide
  have hdata : (generate_password_hash salt p).data
      = "pbkdf2:sha256".data ++ '$' :: (salt.data ++ '$' :: (salt.data ++ ':' :: p.data)) := by
    simp [generate_password_hash, String.data_append]
  unfold check_password_hash
  rw [hdata, splitFirstChar_append_of_not_mem _ _ _ hm]
  dsimp only
  rw [splitFirstChar_append_of_not_mem _ _ _ hsalt]
  simp only [Bool.and_eq_true, decide_eq_true_eq]
  constructor
  · intro h
    have h2 := List.append_cancel_left h.2
    simp only [List.cons.injEq] at h2
    exact String.ext_iff.mpr h2.2.symm
  · intro h
    subst h
    exact ⟨trivial, rfl⟩

/-- The spec-modelled verifier rejects (rather than failing on) any string
without the two-separator `method$salt$digest` layout. -/
theorem check_malformed (h c : String) (hcount : List.count '$' h.data < 2) :
    check_password_hash h c = false := by
  unfold check_password_hash
  cases hs1 : splitFirstChar '$' h.data with
  | none => rfl
  | some p =>
    have hp := splitFirstChar_eq_some '$' h.data p hs1
    have hcnt : List.count '$' h.data = List.count '$' p.2 + 1 := by
      rw [hp.2, List.count_append, List.count_cons_self,
        List.count_eq_zero.mpr hp.1]
      omega
    have hz : List.count '$' p.2 = 0 := by omega
    have hnm : '$' ∉ p.2 := List.count_eq_zero.mp hz
    dsimp only
    rw [splitFirstChar_eq_none_of_not_mem '$' p.2 hnm]

/-- A mismatching candidate is rejected. -/
theorem check_generate_ne (salt p c : String) (hsalt : '$' ∉ salt.data)
    (hne : ¬ c = p) : check_password_hash (generate_password_hash salt p) c = false := by
  cases hb : check_password_hash (generate_password_hash salt p) c with
  | false => rfl
  | true => exact absurd ((check_generate_iff salt p c hsalt).mp hb) hne

/-! ### Helper lemmas on the authenticate branches -/

theorem authenticate_user_not_found (st : SessionState) (lf : Bool) (now : Nat)
    (idf pw : String) (h : find_user_by_identifier st idf = none) :
    authenticate_user st lf now idf pw =
      (st, none, some "Invalid email/username or password") := by
  unfold authenticate_user
  rw [h]

theorem authenticate_user_inactive (st : SessionState) (lf : Bool) (now : Nat)
    (idf pw : String) (u : User) (h : find_user_by_identifier st idf = some u)
    (ha : u.active = false) :
    authenticate_user st lf now idf pw =
      (st, none, some "Your account has been deactivated") := by
  unfold authenticate_user
  rw [h]
  simp [ha]

theorem authenticate_user_wrong_password (st : SessionState) (lf : Bool)
    (now : Nat) (idf pw : String) (u : User)
    (h : find_user_by_identifier st idf = some u) (ha : u.active = true)
    (hc : check_password_hash u.password_hash pw = false) :
    authenticate_user st lf now idf pw =
      (log_activity st lf "login_failed" (some u.id)
        (some [("reason", MetaVal.str "invalid_password"),
               ("email", MetaVal.str idf)]),
       none, some "Invalid email/username or password") := by
  unfold authenticate_user
  rw [h]
  simp [ha, hc]

/-- Marking a session inactive does not change which tokens exist, so a
token that was findable stays findable. -/
theorem find?_setInactiveFirst_isSome (l : List UserSession) (sid : String) :
    ((setInactiveFirst l sid).find? (fun s => s.session_id = sid)).isSome
      = (l.find? (fun s => s.session_id = sid)).isSome := by
  induction l with
  | nil => rfl
  | cons s rest ih =>
    by_cases h : s.session_id = sid
    · rw [setInactiveFirst]
      rw [if_pos h]
      rw [List.find?_cons_of_pos rest (by simp [h]),
        List.find?_cons_of_pos rest (by simp [h])]
      rfl
    · rw [setInactiveFirst]
      rw [if_neg h]
      rw [List.find?_cons_of_neg (setInactiveFirst rest sid) (by simp [h]),
        List.find?_cons_of_neg rest (by simp [h]), ih]

/-- A found token makes `invalidate_session` answer true. -/
theorem invalidate_session_found (st : SessionState) (sid : String)
    (h : (st.working.sessions.find? (fun s => s.session_id = sid)).isSome = true) :
    (invalidate_session st sid).2 = true := by
  rcases Option.isSome_iff_exists.mp h with ⟨s, hs⟩
  unfold invalidate_session
  rw [hs]

/-- An absent token makes `invalidate_session` answer false, untouched. -/
theorem invalidate_session_not_found (st : SessionState) (sid : String)
    (h : st.working.sessions.find? (fun s => s.session_id = sid) = none) :
    invalidate_session st sid = (st, false) := by
  unfold invalidate_session
  rw [h]

/-- `invalidate_session` never removes the token it touched. -/
theorem invalidate_session_preserves_token (st : SessionState) (sid : String) :
    ((invalidate_session st sid).1.working.sessions.find?
        (fun s => s.session_id = sid)).isSome
      = (st.working.sessions.find? (fun s => s.session_id = sid)).isSome := by
  cases hs : st.working.sessions.find? (fun s => s.session_id = sid) with
  | none =>
    unfold invalidate_session
    rw [hs]
    dsimp only
    rw [hs]
  | some s =>
    unfold invalidate_session
    rw [hs]
    dsimp only [commit, setWorking]
    rw [find?_setInactiveFirst_isSome, hs]

/-! ### Claim theorems -/

/-- C1: the claim says a failing activity-log write inside `create_user`
leaves the user and profile writes committed, and that the call never
reports success with the user row uncommitted.  The code violates this:
`log_activity`'s exception handler rolls back the shared session,
discarding the still-uncommitted user and profile rows, after which
`create_user` commits an empty session and still returns the user with no
error. -/
theorem C1_log_failure_discards_user_but_reports_success :
    (create_user stEmpty true "s1" "a@b.com" "alice" "pw" none "user").2.1.isSome = true ∧
    (create_user stEmpty true "s1" "a@b.com" "alice" "pw" none "user").2.2 = none ∧
    (create_user stEmpty true "s1" "a@b.com" "alice" "pw" none "user").1.committed.users = [] ∧
    (create_user stEmpty true "s1" "a@b.com" "alice" "pw" none "user").1.committed.profiles = [] := by
  decide

/-- C2 counterexample: a run that loses the uniqueness race (the raw-string
pre-check misses the stored `a@b.com` when the caller writes `A@b.com`,
and the insert of the normalized email then violates the unique
constraint) returns the generic creation error, not either
DuplicateIdentifier message the pre-check would return. -/
theorem C2_race_returns_generic_not_duplicate :
    (create_user stAlice false "s2" "A@b.com" "bob" "pw" none "user").2.2 =
      some "An error occurred while creating your account" ∧
    ¬ ((create_user stAlice false "s2" "A@b.com" "bob" "pw" none "user").2.2 =
      some "An account with this email already exists") ∧
    ¬ ((create_user stAlice false "s2" "A@b.com" "bob" "pw" none "user").2.2 =
      some "This username is already taken") := by
  decide

/-- C2 amended: whenever the pre-check finds no match but the insert hits
the uniqueness constraint, the `IntegrityError` is caught and translated
into a rollback plus the generic creation error — never propagated as a
raw storage exception, but also not the DuplicateIdentifier message. -/
theorem C2_race_caught_and_translated (st : SessionState) (lf : Bool)
    (salt email username password role : String) (full_name : Option String)
    (h1 : st.working.users.find?
      (fun u => u.email = email ∨ u.username = username) = none)
    (h2 : st.working.users.any
      (fun u => u.email = pyLowerStrip email ∨ u.username = pyStrip username) = true) :
    create_user st lf salt email username password full_name role =
      (rollback st, none, some "An error occurred while creating your account") := by
  unfold create_user
  rw [h1]
  dsimp only
  rw [h2]
  simp

/-- C2 witness. -/
theorem C2_race_caught_and_translated_witness :
    create_user stAlice false "s2" "A@b.com" "bob" "pw" none "user" =
      (rollback stAlice, none, some "An error occurred while creating your account") :=
  C2_race_caught_and_translated stAlice false "s2" "A@b.com" "bob" "pw" "user"
    none (by decide) (by decide)

/-- C3 counterexample: the lookup normalizes (a case/whitespace variant of
`alice`'s stored email finds her), but the duplicate pre-check inside
`create_user` compares the raw candidate, so the same variant is not
reported as a duplicate email there — the claim's "every User Directory
operation ... including the pre-check inside create_user" fails. -/
theorem C3_precheck_does_not_normalize :
    get_user_by_email stAlice " A@B.COM " = some alice ∧
    ¬ ((create_user stAlice false "s2" " A@B.COM " "bob" "pw" none "user").2.2 =
      some "An account with this email already exists") := by
  decide

/-- C4 counterexample: invalidating session `t1` twice returns `true` both
times, because the code only tests row existence, not the active flag; the
claim says the second call returns `false`. -/
theorem C4_second_invalidate_returns_true :
    (invalidate_session stAliceSess "t1").2 = true ∧
    (invalidate_session (invalidate_session stAliceSess "t1").1 "t1").2 = true := by
  decide

/-- C8: the claim says `updated_fields` equals exactly the set of field
names the caller provided.  The code derives the list from `locals()`,
which also holds the local variables `user` and `profile` at the point of
the call, so both names always leak into the metadata: a call providing
only `bio` logs `["bio", "user", "profile"]`. -/
theorem C8_updated_fields_leaks_locals :
    (update_user_profile stAlice false 1 none (some "hello") none none none none).1.committed.activities =
      [{ user_id := some 1, action := "profile_updated", resource_type := none,
         resource_id := none,
         metadata := some [("updated_fields",
           MetaVal.strList ["bio", "user", "profile"])] }] ∧
    ¬ (localsUpdatedFields none (some "hello") none none none none = ["bio"]) := by
  decide

/-- C9: the verifier is a total Boolean function: on a hash produced from
a password it accepts exactly that password, and on any string without the
two-separator `method$salt$digest` layout it returns false rather than
failing. -/
theorem C9_verify_total_and_correct :
    (∀ salt p c, '$' ∉ salt.data →
      (check_password_hash (generate_password_hash salt p) c = true ↔ c = p)) ∧
    (∀ h c, List.count '$' h.data < 2 → check_password_hash h c = false) :=
  ⟨fun salt p c hs => check_generate_iff salt p c hs,
   fun h c hc => check_malformed h c hc⟩

/-- C9 witness. -/
theorem C9_verify_total_and_correct_witness :
    check_password_hash (generate_password_hash "ab" "pw") "pw" = true ∧
    check_password_hash "garbage" "pw" = false :=
  ⟨(C9_verify_total_and_correct.1 "ab" "pw" "pw" (by decide)).mpr rfl,
   C9_verify_total_and_correct.2 "garbage" "pw" (by decide)⟩

/-- C3 amended: the lookups normalize the candidate email to
lowercase/trim (any case or whitespace variant of a stored email finds the
user), and username lookups match the trimmed candidate exactly
(case-sensitively); but the duplicate pre-check inside `create_user`
compares the raw candidate email and username, so it reports a
DuplicateIdentifier exactly when a stored row matches the raw strings. -/
theorem C3_lookups_normalize_precheck_raw :
    (∀ st e1 e2, pyLowerStrip e1 = pyLowerStrip e2 →
      get_user_by_email st e1 = get_user_by_email st e2) ∧
    (∀ st v u, u ∈ st.working.users → pyLowerStrip v = u.email →
      (get_user_by_email st v).isSome = true) ∧
    (∀ st un u, get_user_by_username st un = some u → u.username = pyStrip un) ∧
    (∀ st lf salt e un pw fn r,
      (((create_user st lf salt e un pw fn r).2.2 =
          some "An account with this email already exists") ∨
       ((create_user st lf salt e un pw fn r).2.2 =
          some "This username is already taken")) ↔
      (st.working.users.find? (fun u => u.email = e ∨ u.username = un)).isSome = true) := by
  refine ⟨?_, ?_, ?_, ?_⟩
  · intro st e1 e2 h
    unfold get_user_by_email
    rw [h]
  · intro st v u hmem hv
    unfold get_user_by_email
    exact List.find?_isSome.mpr ⟨u, hmem, by simp [hv]⟩
  · intro st un u h
    have := List.find?_some h
    simpa using this
  · intro st lf salt e un pw fn r
    cases hf : st.working.users.find? (fun u => u.email = e ∨ u.username = un) with
    | some u =>
      unfold create_user
      rw [hf]
      dsimp only
      constructor
      · intro _
        rfl
      · intro _
        by_cases he : u.email = e
        · rw [if_pos he]
          left
          rfl
        · rw [if_neg he]
          right
          rfl
    | none =>
      unfold create_user
      rw [hf]
      dsimp only
      constructor
      · intro hdisj
        by_cases h2 : (st.working.users.any fun u =>
            decide (u.email = pyLowerStrip e ∨ u.username = pyStrip un)) = true
        · rw [if_pos h2] at hdisj
          rcases hdisj with h | h <;> simp at h
        · rw [if_neg h2] at hdisj
          rcases hdisj with h | h <;> simp at h
      · intro h
        simp at h

/-- C3 witness. -/
theorem C3_lookups_normalize_precheck_raw_witness :
    get_user_by_email stAlice " A@B.COM " = get_user_by_email stAlice "a@b.com" ∧
    (get_user_by_email stAlice " A@B.COM ").isSome = true ∧
    ((create_user stAlice false "s2" " A@B.COM " "bob" "pw" none "user").2.2 =
        some "An account with this email already exists" ∨
      (create_user stAlice false "s2" " A@B.COM " "bob" "pw" none "user").2.2 =
        some "This username is already taken") = False := by
  refine ⟨C3_lookups_normalize_precheck_raw.1 stAlice " A@B.COM " "a@b.com" (by decide),
    C3_lookups_normalize_precheck_raw.2.1 stAlice " A@B.COM " alice (by decide) (by decide),
    ?_⟩
  have h := C3_lookups_normalize_precheck_raw.2.2.2 stAlice false "s2" " A@B.COM "
    "bob" "pw" none "user"
  simp only [eq_iff_iff, iff_false]
  intro hd
  have := h.mp hd
  rw [show (stAlice.working.users.find? fun u =>
    decide (u.email = " A@B.COM " ∨ u.username = "bob")) = none by decide] at this
  simp at this

/-- C4 amended: `invalidate_session t` returns false exactly when no
session row carries token `t`; when a row exists — active or already
invalidated — the call returns true, and a second call on the same token
returns true again rather than false.  The operation is a total function
(it cannot raise). -/
theorem C4_invalidate_false_only_when_absent (st : SessionState) (sid : String) :
    (st.working.sessions.find? (fun s => s.session_id = sid) = none →
      invalidate_session st sid = (st, false)) ∧
    ((st.working.sessions.find? (fun s => s.session_id = sid)).isSome = true →
      (invalidate_session st sid).2 = true ∧
      (invalidate_session (invalidate_session st sid).1 sid).2 = true) := by
  constructor
  · intro h
    exact invalidate_session_not_found st sid h
  · intro h
    refine ⟨invalidate_session_found st sid h, ?_⟩
    apply invalidate_session_found
    rw [invalidate_session_preserves_token]
    exact h

/-- C4 witness. -/
theorem C4_invalidate_false_only_when_absent_witness :
    invalidate_session stAlice "t1" = (stAlice, false) ∧
    (invalidate_session stAliceSess "t1").2 = true ∧
    (invalidate_session (invalidate_session stAliceSess "t1").1 "t1").2 = true :=
  ⟨(C4_invalidate_false_only_when_absent stAlice "t1").1 (by decide),
   (C4_invalidate_false_only_when_absent stAliceSess "t1").2 (by decide)⟩

/-- C5: authenticating with an unknown identifier and authenticating as a
stored active user with a wrong password return the same
`InvalidCredentials` result — the caller sees the identical (user, error)
pair in both failure runs. -/
theorem C5_enumeration_resistance (st : SessionState) (lf : Bool) (now : Nat)
    (id1 pw1 id2 w salt p : String) (u : User)
    (h1 : find_user_by_identifier st id1 = none)
    (h2 : find_user_by_identifier st id2 = some u)
    (ha : u.active = true)
    (hh : u.password_hash = generate_password_hash salt p)
    (hs : '$' ∉ salt.data)
    (hw : ¬ w = p) :
    (authenticate_user st lf now id1 pw1).2 =
      (none, some "Invalid email/username or password") ∧
    (authenticate_user st lf now id2 w).2 =
      (none, some "Invalid email/username or password") := by
  have hc : check_password_hash u.password_hash w = false := by
    rw [hh]
    exact check_generate_ne salt p w hs hw
  rw [authenticate_user_not_found st lf now id1 pw1 h1,
    authenticate_user_wrong_password st lf now id2 w u h2 ha hc]
  exact ⟨rfl, rfl⟩

/-- C5 witness. -/
theorem C5_enumeration_resistance_witness :
    (authenticate_user stAlice false 7 "nobody@x.com" "guess").2 =
      (none, some "Invalid email/username or password") ∧
    (authenticate_user stAlice false 7 "a@b.com" "wrong").2 =
      (none, some "Invalid email/username or password") :=
  C5_enumeration_resistance stAlice false 7 "nobody@x.com" "guess" "a@b.com"
    "wrong" "s0" "pw0" alice (by decide) (by decide) (by decide) (by decide)
    (by decide) (by decide)

/-- C6: a deactivated user's authenticate call answers `AccountDisabled`
for every supplied password — the correct one included — because the
active check is decided before any password verification. -/
theorem C6_inactive_account_disabled (st : SessionState) (lf : Bool)
    (now : Nat) (idf : String) (u : User)
    (h : find_user_by_identifier st idf = some u) (ha : u.active = false) :
    ∀ pw, authenticate_user st lf now idf pw =
      (st, none, some "Your account has been deactivated") :=
  fun pw => authenticate_user_inactive st lf now idf pw u h ha

/-- C6 witness: `carol`'s stored password is `pw2`, and supplying exactly
that password still answers `AccountDisabled`. -/
theorem C6_inactive_account_disabled_witness :
    authenticate_user stTwo false 7 "c@d.com" "pw2" =
      (stTwo, none, some "Your account has been deactivated") ∧
    check_password_hash carol.password_hash "pw2" = true :=
  ⟨C6_inactive_account_disabled stTwo false 7 "c@d.com" carol (by decide)
    (by decide) "pw2", by decide⟩

/-- C7: a change_password call whose current-password check fails returns
the error with the entire session state unchanged — stored hash, session
flags and the activity log are all exactly as before. -/
theorem C7_wrong_current_password_is_pure (st : SessionState) (lf : Bool)
    (csid : Option String) (new_salt : String) (uid : Nat)
    (cur new salt p : String) (u : User)
    (h : st.working.users.find? (fun v => v.id = uid) = some u)
    (hh : u.password_hash = generate_password_hash salt p)
    (hs : '$' ∉ salt.data)
    (hw : ¬ cur = p) :
    change_password st lf csid new_salt uid cur new =
      (st, false, some "Current password is incorrect") := by
  have hc : check_password_hash u.password_hash cur = false := by
    rw [hh]
    exact check_generate_ne salt p cur hs hw
  unfold change_password
  rw [h]
  simp [hc]

/-- C7 witness. -/
theorem C7_wrong_current_password_is_pure_witness :
    change_password stAlice false none "s9" 1 "wrong" "newpw" =
      (stAlice, false, some "Current password is incorrect") :=
  C7_wrong_current_password_is_pure stAlice false none "s9" 1 "wrong" "newpw"
    "s0" "pw0" alice (by decide) (by decide) (by decide) (by decide)

/-- C10: the two authenticate failure modes that precede the password
check — unknown identifier and deactivated account — return with the
session state untouched, so no activity-log entry is written; a
`login_failed` entry is appended exactly on the remaining failure mode,
where the user exists, is active, and the password mismatches. -/
theorem C10_login_failed_logged_only_on_mismatch (st : SessionState)
    (lf : Bool) (now : Nat) (idf pw : String) (u : User) :
    (find_user_by_identifier st idf = none →
      authenticate_user st lf now idf pw =
        (st, none, some "Invalid email/username or password")) ∧
    (find_user_by_identifier st idf = some u → u.active = false →
      authenticate_user st lf now idf pw =
        (st, none, some "Your account has been deactivated")) ∧
    (find_user_by_identifier st idf = some u → u.active = true →
      check_password_hash u.password_hash pw = false →
      (authenticate_user st false now idf pw).1.working.activities =
        st.working.activities ++
          [{ user_id := some u.id, action := "login_failed",
             resource_type := none, resource_id := none,
             metadata := some [("reason", MetaVal.str "invalid_password"),
                               ("email", MetaVal.str idf)] }]) := by
  refine ⟨fun h => authenticate_user_not_found st lf now idf pw h,
    fun h ha => authenticate_user_inactive st lf now idf pw u h ha,
    fun h ha hc => ?_⟩
  rw [authenticate_user_wrong_password st false now idf pw u h ha hc]
  simp [log_activity, commit, setWorking]

/-- C10 witness. -/
theorem C10_login_failed_logged_only_on_mismatch_witness :
    authenticate_user stAlice false 7 "nobody@x.com" "pw" =
      (stAlice, none, some "Invalid email/username or password") ∧
    authenticate_user stTwo false 7 "c@d.com" "pw" =
      (stTwo, none, some "Your account has been deactivated") ∧
    (authenticate_user stAlice false 7 "a@b.com" "wrong").1.working.activities =
      stAlice.working.activities ++
        [{ user_id := some 1, action := "login_failed",
           resource_type := none, resource_id := none,
           metadata := some [("reason", MetaVal.str "invalid_password"),
                             ("email", MetaVal.str "a@b.com")] }] :=
  ⟨(C10_login_failed_logged_only_on_mismatch stAlice false 7 "nobody@x.com"
      "pw" alice).1 (by decide),
   (C10_login_failed_logged_only_on_mismatch stTwo false 7 "c@d.com"
      "pw" carol).2.1 (by decide) (by decide),
   (C10_login_failed_logged_only_on_mismatch stAlice false 7 "a@b.com"
      "wrong" alice).2.2 (by decide) (by decide) (by decide)⟩

end Goldilocks
